import Mathlib

/-!
Shallow embedding of the local-rank-checker pipeline
(src/server/routes.ts of the repository), together with proofs of the
specification's claims about it.

Strings from the source are modelled as Lean `String`s; the JavaScript
normalization steps (`toLowerCase`, `replace(/\s/g,'')`,
`replace(/[^a-z0-9]/g,'')`, `includes`) are modelled on the underlying
character lists, with `Char.toLower` standing for `toLowerCase` and
`List.IsInfix` standing for contiguous-substring containment
(`String.prototype.includes`).  JavaScript floating-point numbers in the
geo-grid generator are modelled as real numbers.
-/

namespace LocalRankChecker

/-- Characters matched by the JavaScript `\s` class, as far as they are
relevant here (space, tab, line feed, carriage return, vertical tab,
form feed). -/
def jsWhitespace (c : Char) : Bool :=
  c = ' ' || c = '\t' || c = '\n' || c = '\r' || c = '\x0b' || c = '\x0c'

/-- Characters kept by the regex `[^a-z0-9]` replacement: lowercase ASCII
letters and ASCII digits. -/
def isLowerAlnum (c : Char) : Bool :=
  ('a' ≤ c && c ≤ 'z') || ('0' ≤ c && c ≤ '9')

/-- routes.ts `normalizeBrandName`: `text.toLowerCase().replace(/\s/g, '')` —
lowercase, then drop all whitespace.  The same rule is applied inline to
listing titles before substring testing. -/
def normalizeBrandName (text : String) : List Char :=
  (text.toList.map Char.toLower).filter (fun c => !jsWhitespace c)

/-- routes.ts `normalizeBranchName`: `text.toLowerCase().replace(/[^a-z0-9]/g, '')` —
lowercase, then keep only lowercase letters and digits. -/
def normalizeBranchName (text : String) : List Char :=
  (text.toList.map Char.toLower).filter isLowerAlnum

/-- A latitude/longitude sample point produced by the geo-grid generator. -/
structure GeoPoint where
  lat : ℝ
  lng : ℝ

/-- routes.ts `kmPerDegreeLat = 111.32`. -/
def kmPerDegreeLat : ℝ := 111.32

/-- routes.ts `kmPerDegreeLng = 111.32 * Math.cos(centerLat * Math.PI / 180)`. -/
noncomputable def kmPerDegreeLng (centerLat : ℝ) : ℝ :=
  111.32 * Real.cos (centerLat * Real.pi / 180)

/-- routes.ts `latStep = (radiusKm * 2) / (gridSize - 1) / kmPerDegreeLat`. -/
noncomputable def latStep (radiusKm : ℝ) (gridSize : ℕ) : ℝ :=
  radiusKm * 2 / ((gridSize : ℝ) - 1) / kmPerDegreeLat

/-- routes.ts `lngStep = (radiusKm * 2) / (gridSize - 1) / kmPerDegreeLng`. -/
noncomputable def lngStep (centerLat radiusKm : ℝ) (gridSize : ℕ) : ℝ :=
  radiusKm * 2 / ((gridSize : ℝ) - 1) / kmPerDegreeLng centerLat

/-- routes.ts `generateGeoGrid`: the nested `for i … for j …` loops pushing
`{ lat: centerLat - radiusKm/kmPerDegreeLat + i*latStep,
   lng: centerLng - radiusKm/kmPerDegreeLng + j*lngStep }`. -/
noncomputable def generateGeoGrid (centerLat centerLng radiusKm : ℝ) (gridSize : ℕ) :
    List GeoPoint :=
  (List.range gridSize).flatMap (fun (i : ℕ) =>
    (List.range gridSize).map (fun (j : ℕ) =>
      { lat := centerLat - radiusKm / kmPerDegreeLat + (i : ℝ) * latStep radiusKm gridSize
        lng := centerLng - radiusKm / kmPerDegreeLng centerLat
            + (j : ℝ) * lngStep centerLat radiusKm gridSize }))

/-- One input row: `{ Keywords, Brand, Branch }` (a QueryTask). -/
structure QueryTask where
  keyword : String
  brand : String
  branch : String
deriving DecidableEq

/-- One raw listing of a search-results page.  Only the `title` field is
inspected by the pipeline; the other upstream fields are passed through
untouched and are elided from the model. -/
structure Place where
  title : String
deriving DecidableEq

/-- One upstream HTTP response: the fields of the fetch `response` object the
code reads (`ok`, `status`, `statusText`) plus the decoded `places` array
(`data.places || []`). -/
structure UpstreamResponse where
  ok : Bool
  status : ℕ
  statusText : String
  places : List Place
deriving DecidableEq

/-- The two failure modes of `searchSerperPlaces`:
`throw new Error("SERPER_API_KEY not configured")` and
`throw new Error("Serper API error: status statusText")`. -/
inductive FetchErr where
  | config : FetchErr
  | upstream (status : ℕ) (statusText : String) : FetchErr
deriving DecidableEq

/-- routes.ts `searchSerperPlaces`: reads the credential from the environment;
throws a configuration error when it is absent (before any request is
issued — the result does not depend on `resp`); otherwise issues the request
and throws an upstream error carrying `response.status` and
`response.statusText` when `response.ok` is false, returning the page's
listings otherwise.  The upstream response is supplied as data. -/
def searchSerperPlaces (apiKey : Option String) (resp : UpstreamResponse) :
    Except FetchErr (List Place) :=
  match apiKey with
  | none => .error .config
  | some _ =>
    if resp.ok then .ok resp.places
    else .error (.upstream resp.status resp.statusText)

/-- The upstream's behavior past the last provided page: a successful response
with an empty `places` array ("no more results"), which the loop uses as its
pagination stop signal. -/
def emptyResponse : UpstreamResponse :=
  { ok := true, status := 200, statusText := "", places := [] }

/-- One emitted result record (the object pushed onto `allResults`), covering
both ListingObservations and the NoMatchSentinel.  `rank` is
`query_result_number` (`none` models the sentinel's `'N/A'`); `isLocalPack`
and `localPackPosition` are `none` where the fields are absent or `null`;
`searchLat`/`searchLng` record the grid point, with the coordinate type left
abstract. -/
structure Obs (α : Type) where
  title : String
  query : String
  brand : String
  branch : String
  rank : Option ℕ
  brandMatch : Bool
  isLocalPack : Option Bool
  localPackPosition : Option ℕ
  searchLat : Option α
  searchLng : Option α
deriving DecidableEq

instance {ε α : Type} [DecidableEq ε] [DecidableEq α] : DecidableEq (Except ε α) :=
  fun x y =>
    match x, y with
    | .ok a, .ok b => decidable_of_iff (a = b) (by simp)
    | .error e, .error f => decidable_of_iff (e = f) (by simp)
    | .ok _, .error _ => .isFalse (fun hc => Except.noConfusion hc)
    | .error _, .ok _ => .isFalse (fun hc => Except.noConfusion hc)

/-- The body of `for (const place of places)`: normalize the title, test both
substrings, derive local-pack fields from the running counter, and build the
pushed record. -/
def classifyPlace {α : Type} (task : QueryTask) (normBrand normBranch : List Char)
    (gp : Option α × Option α) (queryResultIndex : ℕ) (place : Place) : Obs α :=
  let normTitle := normalizeBrandName place.title
  let brandMatch := decide (normBrand <:+: normTitle) && decide (normBranch <:+: normTitle)
  let isLocalPack := decide (queryResultIndex ≤ 3)
  let localPackPosition := if queryResultIndex ≤ 3 then some queryResultIndex else none
  { title := place.title
    query := task.keyword
    brand := task.brand
    branch := task.branch
    rank := some queryResultIndex
    brandMatch := brandMatch
    isLocalPack := some isLocalPack
    localPackPosition := localPackPosition
    searchLat := gp.1
    searchLng := gp.2 }

/-- The `for (const place of places)` loop over one page, threading the
running `queryResultIndex`. -/
def classifyPage {α : Type} (task : QueryTask) (normBrand normBranch : List Char)
    (gp : Option α × Option α) : ℕ → List Place → List (Obs α)
  | _, [] => []
  | queryResultIndex, place :: rest =>
    classifyPlace task normBrand normBranch gp queryResultIndex place ::
      classifyPage task normBrand normBranch gp (queryResultIndex + 1) rest

/-- The `while (true)` pagination loop for one grid point: fetch a page
(counting the call), stop on an empty page, otherwise classify its listings
and continue with the counter advanced by the page length.  The upstream's
responses to pages 1, 2, … are supplied as a list; past its end the upstream
answers `emptyResponse`.  Returns (observations or the propagated fetch
error, number of fetch calls made, final counter value). -/
def processPages {α : Type} (apiKey : Option String) (task : QueryTask)
    (normBrand normBranch : List Char) (gp : Option α × Option α) :
    ℕ → List UpstreamResponse → Except FetchErr (List (Obs α)) × ℕ × ℕ
  | queryResultIndex, [] =>
    match searchSerperPlaces apiKey emptyResponse with
    | .error e => (.error e, 1, queryResultIndex)
    | .ok _ => (.ok [], 1, queryResultIndex)
  | queryResultIndex, resp :: rest =>
    match searchSerperPlaces apiKey resp with
    | .error e => (.error e, 1, queryResultIndex)
    | .ok places =>
      if places.length = 0 then (.ok [], 1, queryResultIndex)
      else
        match processPages apiKey task normBrand normBranch gp
            (queryResultIndex + places.length) rest with
        | (.error e, calls, finalIndex) => (.error e, calls + 1, finalIndex)
        | (.ok obs, calls, finalIndex) =>
          (.ok (classifyPage task normBrand normBranch gp queryResultIndex places ++ obs),
            calls + 1, finalIndex)

/-- The `for (const gridPoint of gridPoints)` loop: each grid point re-enters
the pagination loop with `page = 1` and `queryResultIndex = 1` (routes.ts
declares both inside the grid loop), concatenating observations and summing
fetch calls; a fetch error aborts the remaining grid points. -/
def processGridPoints {α : Type} (apiKey : Option String) (task : QueryTask)
    (normBrand normBranch : List Char) :
    List ((Option α × Option α) × List UpstreamResponse) →
    Except FetchErr (List (Obs α)) × ℕ
  | [] => (.ok [], 0)
  | (gp, resps) :: rest =>
    match processPages apiKey task normBrand normBranch gp 1 resps with
    | (.error e, calls, _) => (.error e, calls)
    | (.ok obs, calls, _) =>
      match processGridPoints apiKey task normBrand normBranch rest with
      | (.error e, calls') => (.error e, calls + calls')
      | (.ok obs', calls') => (.ok (obs ++ obs'), calls + calls')

/-- The `'Brand not found'` record pushed when a QueryTask produced no brand
match: `query_result_number: 'N/A'`, `brand_match: false`, and no local-pack
or coordinate fields. -/
def noMatchSentinel {α : Type} (task : QueryTask) : Obs α :=
  { title := "Brand not found"
    query := task.keyword
    brand := task.brand
    branch := task.branch
    rank := none
    brandMatch := false
    isLocalPack := none
    localPackPosition := none
    searchLat := none
    searchLng := none }

/-- Processing of one QueryTask: normalize the brand and branch once, run all
grid points, then append the sentinel when no emitted observation matched
(`if (!foundBrandMatch)`). -/
def runTask {α : Type} (apiKey : Option String) (task : QueryTask)
    (gridData : List ((Option α × Option α) × List UpstreamResponse)) :
    Except FetchErr (List (Obs α)) × ℕ :=
  let normBrand := normalizeBrandName task.brand
  let normBranch := normalizeBranchName task.branch
  match processGridPoints apiKey task normBrand normBranch gridData with
  | (.error e, calls) => (.error e, calls)
  | (.ok obs, calls) =>
    if obs.any (fun o => o.brandMatch) then (.ok obs, calls)
    else (.ok (obs ++ [noMatchSentinel task]), calls)

/-- The outer `for` loop over the parsed CSV rows: each task is paired with
the upstream's behavior for it (per grid point, the list of page responses);
results are concatenated into `allResults` and `totalApiCalls` accumulates;
a fetch error aborts the whole run with no result list. -/
def runAll {α : Type} (apiKey : Option String) :
    List (QueryTask × List ((Option α × Option α) × List UpstreamResponse)) →
    Except FetchErr (List (Obs α)) × ℕ
  | [] => (.ok [], 0)
  | (task, gridData) :: rest =>
    match runTask apiKey task gridData with
    | (.error e, calls) => (.error e, calls)
    | (.ok obs, calls) =>
      match runAll apiKey rest with
      | (.error e, calls') => (.error e, calls + calls')
      | (.ok obs', calls') => (.ok (obs ++ obs'), calls + calls')

/-- A page response on which the pagination loop continues: the fetch
succeeds and the page is non-empty. -/
def goodPage (apiKey : Option String) (resp : UpstreamResponse) : Bool :=
  match searchSerperPlaces apiKey resp with
  | .ok places => !(places.length = 0)
  | .error _ => false

/-- Specification-side count of fetch invocations for one grid point: one
call per leading good page, plus the final call that terminates pagination
(empty page, past-the-end empty page, or failed fetch). -/
def numFetches (apiKey : Option String) (resps : List UpstreamResponse) : ℕ :=
  (resps.takeWhile (goodPage apiKey)).length + 1

/-- The observations one grid point's pagination loop contributes (empty when
the fetch fails there). -/
def gridPointObs {α : Type} (apiKey : Option String) (task : QueryTask)
    (normBrand normBranch : List Char)
    (g : (Option α × Option α) × List UpstreamResponse) : List (Obs α) :=
  match (processPages apiKey task normBrand normBranch g.1 1 g.2).1 with
  | .ok obs => obs
  | .error _ => []

/-- Concrete example task used by witnesses: brand "a", branch "b". -/
def exTask : QueryTask := { keyword := "dentist london", brand := "a", branch := "b" }

/-- A successful upstream response carrying the given listings. -/
def exOk (ps : List Place) : UpstreamResponse :=
  { ok := true, status := 200, statusText := "", places := ps }

/-- A failing upstream response (HTTP 500). -/
def exBad : UpstreamResponse :=
  { ok := false, status := 500, statusText := "Internal Server Error", places := [] }

def exNB : List Char := normalizeBrandName exTask.brand

def exNBr : List Char := normalizeBranchName exTask.branch

/-- The disabled-geo-grid "no location" point, over a trivial coordinate type. -/
def exGp : Option Unit × Option Unit := (none, none)

/-- Two grid points: two listings at the first, one at the second. -/
def exGrid2 : List ((Option Unit × Option Unit) × List UpstreamResponse) :=
  [(exGp, [exOk [{ title := "a b" }, { title := "ab x" }]]),
   (exGp, [exOk [{ title := "a b" }]])]

def exObs2 : List (Obs Unit) :=
  classifyPage exTask exNB exNBr exGp 1 [{ title := "a b" }, { title := "ab x" }] ++
    classifyPage exTask exNB exNBr exGp 1 [{ title := "a b" }]

/-- The worked example of the specification: brand "Property People",
branch "Belfast", matching title "Belfast Property People Ltd". -/
def exTaskPP : QueryTask :=
  { keyword := "estate agents belfast", brand := "Property People", branch := "Belfast" }

def exPlacePP : Place := { title := "Belfast Property People Ltd" }

def exGridPP : List ((Option Unit × Option Unit) × List UpstreamResponse) :=
  [(exGp, [exOk [exPlacePP, { title := "Other Agent" }]])]

def exObsPP : List (Obs Unit) :=
  classifyPage exTaskPP (normalizeBrandName exTaskPP.brand)
    (normalizeBranchName exTaskPP.branch) exGp 1 [exPlacePP, { title := "Other Agent" }]

def exObsPP1 : Obs Unit :=
  classifyPlace exTaskPP (normalizeBrandName exTaskPP.brand)
    (normalizeBranchName exTaskPP.branch) exGp 1 exPlacePP

/-- Two grid points, no listing matching brand "a" + branch "b". -/
def exGridNoMatch : List ((Option Unit × Option Unit) × List UpstreamResponse) :=
  [(exGp, [exOk [{ title := "zzz" }]]), (exGp, ([] : List UpstreamResponse))]

def exObsNoMatch : List (Obs Unit) :=
  classifyPage exTask exNB exNBr exGp 1 [{ title := "zzz" }] ++ [noMatchSentinel exTask]

/-- Two grid points whose every provided page is empty. -/
def exGridAllEmpty : List ((Option Unit × Option Unit) × List UpstreamResponse) :=
  [(exGp, ([] : List UpstreamResponse)), (exGp, [exOk []])]

/-- One grid point with four listings on one page (local-pack boundary). -/
def exGrid4 : List ((Option Unit × Option Unit) × List UpstreamResponse) :=
  [(exGp, [exOk [{ title := "a b" }, { title := "x" }, { title := "y" },
    { title := "a b z" }]])]

def exObs4 : List (Obs Unit) :=
  classifyPage exTask exNB exNBr exGp 1
    [{ title := "a b" }, { title := "x" }, { title := "y" }, { title := "a b z" }]

def exObs4last : Obs Unit := classifyPlace exTask exNB exNBr exGp 4 { title := "a b z" }

/-- Two pages (two listings then one) for one grid point. -/
def exPages2 : List UpstreamResponse :=
  [exOk [{ title := "a b" }, { title := "c" }], exOk [{ title := "d" }]]

def exObsPages2 : List (Obs Unit) :=
  classifyPage exTask exNB exNBr exGp 1 [{ title := "a b" }, { title := "c" }] ++
    classifyPage exTask exNB exNBr exGp 3 [{ title := "d" }]

/-- A two-task run. -/
def exRunTasks :
    List (QueryTask × List ((Option Unit × Option Unit) × List UpstreamResponse)) :=
  [(exTask, exGrid2), (exTaskPP, exGridPP)]

/-- A task whose brand is only whitespace and whose branch is only
punctuation. -/
def exTaskDeg : QueryTask := { keyword := "k", brand := "   ", branch := "!!!" }

/-- Indexing of a grid built by nested loops: the element at flat index
`i * n + j` of the outer-`i`, inner-`j` construction is `f i j`. -/
theorem flatMap_range_map_getElem {β : Type} (m n : ℕ) (f : ℕ → ℕ → β) :
    ∀ i j : ℕ, i < m → j < n →
      ((List.range m).flatMap (fun a => (List.range n).map (f a)))[i * n + j]? = some (f i j) := by
  induction m generalizing f with
  | zero => exact fun i j hi _ => absurd hi (Nat.not_lt_zero i)
  | succ m ih =>
    intro i j hi hj
    rw [List.range_succ_eq_map, List.flatMap_cons, List.flatMap_map]
    rcases i with _ | i
    · rw [Nat.zero_mul, Nat.zero_add, List.getElem?_append]
      rw [if_pos (by simpa using hj), List.getElem?_map, List.getElem?_range hj]
      rfl
    · have hlen : ((List.range n).map (f 0)).length = n := by simp
      have hge : ((List.range n).map (f 0)).length ≤ (i + 1) * n + j := by
        rw [hlen]; calc n ≤ i * n + n := by omega
          _ = (i + 1) * n := by ring
          _ ≤ (i + 1) * n + j := by omega
      rw [List.getElem?_append_right hge, hlen]
      have hidx : (i + 1) * n + j - n = i * n + j := by
        have : (i + 1) * n = i * n + n := by ring
        omega
      rw [hidx]
      exact ih (fun a => f (a + 1)) i j (Nat.lt_of_succ_lt_succ hi) hj

/-- The point the nested loops push for loop indices `(i, j)`. -/
noncomputable def gridPointAt (centerLat centerLng radiusKm : ℝ) (gridSize i j : ℕ) :
    GeoPoint :=
  { lat := centerLat - radiusKm / kmPerDegreeLat + (i : ℝ) * latStep radiusKm gridSize
    lng := centerLng - radiusKm / kmPerDegreeLng centerLat
        + (j : ℝ) * lngStep centerLat radiusKm gridSize }

theorem generateGeoGrid_eq (centerLat centerLng radiusKm : ℝ) (gridSize : ℕ) :
    generateGeoGrid centerLat centerLng radiusKm gridSize =
      (List.range gridSize).flatMap (fun i =>
        (List.range gridSize).map (gridPointAt centerLat centerLng radiusKm gridSize i)) :=
  rfl

/-- C6: for `gridSize ≥ 2` the generator yields exactly `gridSize²` points,
and the first point of the sequence is the southwest corner
`(centerLat − radiusKm/kmPerDegreeLat, centerLng − radiusKm/kmPerDegreeLng centerLat)`,
with `kmPerDegreeLat = 111.32` and
`kmPerDegreeLng centerLat = 111.32 · cos(centerLat · π / 180)`. -/
theorem generateGeoGrid_card_and_first (centerLat centerLng radiusKm : ℝ) (gridSize : ℕ)
    (h : 2 ≤ gridSize) :
    (generateGeoGrid centerLat centerLng radiusKm gridSize).length = gridSize ^ 2 ∧
    (generateGeoGrid centerLat centerLng radiusKm gridSize).head? =
      some { lat := centerLat - radiusKm / kmPerDegreeLat
             lng := centerLng - radiusKm / kmPerDegreeLng centerLat } := by
  constructor
  · rw [Nat.pow_two, generateGeoGrid_eq]
    simp [List.length_flatMap, Function.comp_def, List.map_const', List.sum_replicate,
      smul_eq_mul]
  · have h0 : 0 < gridSize := by omega
    have hidx := flatMap_range_map_getElem gridSize gridSize
      (gridPointAt centerLat centerLng radiusKm gridSize) 0 0 h0 h0
    rw [List.head?_eq_getElem?, generateGeoGrid_eq]
    have hz : (0 : ℕ) * gridSize + 0 = 0 := by omega
    rw [hz] at hidx
    rw [hidx]
    simp [gridPointAt]

/-- Witness for C6 at a concrete grid spec. -/
theorem generateGeoGrid_card_and_first_witness :
    (2 : ℕ) ≤ 2 ∧
    ((generateGeoGrid 0 0 5 2).length = 2 ^ 2 ∧
     (generateGeoGrid 0 0 5 2).head? =
       some { lat := 0 - 5 / kmPerDegreeLat, lng := 0 - 5 / kmPerDegreeLng 0 }) :=
  ⟨le_refl 2, generateGeoGrid_card_and_first 0 0 5 2 (le_refl 2)⟩

/-- Counterexample to C7 as stated: at the concrete spec
`(centerLat, centerLng, radiusKm, gridSize) = (0, 0, 5, 2)`, the second point
of the sequence has the SAME latitude as the first and a DIFFERENT longitude,
so consecutive points do not step north within a column with longitude held
fixed — the generator steps east first. -/
theorem generateGeoGrid_north_first_counterexample :
    ((generateGeoGrid 0 0 5 2)[1]?).map GeoPoint.lat =
      ((generateGeoGrid 0 0 5 2)[0]?).map GeoPoint.lat ∧
    ((generateGeoGrid 0 0 5 2)[1]?).map GeoPoint.lng ≠
      ((generateGeoGrid 0 0 5 2)[0]?).map GeoPoint.lng := by
  have h00 := flatMap_range_map_getElem 2 2 (gridPointAt 0 0 5 2) 0 0 (by omega) (by omega)
  have h01 := flatMap_range_map_getElem 2 2 (gridPointAt 0 0 5 2) 0 1 (by omega) (by omega)
  rw [generateGeoGrid_eq]
  norm_num at h00 h01
  rw [h00, h01]
  constructor
  · simp [gridPointAt]
  · simp only [Option.map_some, ne_eq, Option.some.injEq, gridPointAt]
    have hstep : lngStep 0 5 2 = 10 / 111.32 := by
      rw [lngStep, kmPerDegreeLng]
      norm_num
    intro hc
    rw [hstep] at hc
    norm_num at hc

/-- C7 amended: the generator is laid out from the southwest corner stepping
EAST first (longitude varies fastest) and then north: the point at flat index
`i * gridSize + j` (for `i, j < gridSize`) is
`(swLat + i·latStep, swLng + j·lngStep)`, so within a row of `gridSize`
consecutive points only the longitude advances, and the latitude advances by
one step after each full row. -/
theorem generateGeoGrid_east_then_north (centerLat centerLng radiusKm : ℝ)
    (gridSize i j : ℕ) (h : 2 ≤ gridSize) (hi : i < gridSize) (hj : j < gridSize) :
    (generateGeoGrid centerLat centerLng radiusKm gridSize)[i * gridSize + j]? =
      some { lat := centerLat - radiusKm / kmPerDegreeLat + (i : ℝ) * latStep radiusKm gridSize
             lng := centerLng - radiusKm / kmPerDegreeLng centerLat
                + (j : ℝ) * lngStep centerLat radiusKm gridSize } := by
  rw [generateGeoGrid_eq]
  exact flatMap_range_map_getElem gridSize gridSize
    (gridPointAt centerLat centerLng radiusKm gridSize) i j hi hj

/-- Witness for the amended C7 at a concrete grid spec and index. -/
theorem generateGeoGrid_east_then_north_witness :
    (2 : ℕ) ≤ 2 ∧ (1 : ℕ) < 2 ∧ (0 : ℕ) < 2 ∧
    (generateGeoGrid 0 0 5 2)[1 * 2 + 0]? =
      some { lat := 0 - 5 / kmPerDegreeLat + (1 : ℝ) * latStep 5 2
             lng := 0 - 5 / kmPerDegreeLng 0 + (0 : ℝ) * lngStep 0 5 2 } := by
  refine ⟨le_refl 2, by omega, by omega, ?_⟩
  have := generateGeoGrid_east_then_north 0 0 5 2 1 0 (le_refl 2) (by omega) (by omega)
  simpa using this

theorem processPages_cons_error {α : Type} {apiKey : Option String} {task : QueryTask}
    {nB nBr : List Char} {gp : Option α × Option α} {r : ℕ} {resp : UpstreamResponse}
    {rest : List UpstreamResponse} {e : FetchErr}
    (hk : searchSerperPlaces apiKey resp = .error e) :
    processPages apiKey task nB nBr gp r (resp :: rest) = (.error e, 1, r) := by
  rw [processPages, hk]

theorem processPages_cons_empty {α : Type} {apiKey : Option String} {task : QueryTask}
    {nB nBr : List Char} {gp : Option α × Option α} {r : ℕ} {resp : UpstreamResponse}
    {rest : List UpstreamResponse} {places : List Place}
    (hk : searchSerperPlaces apiKey resp = .ok places) (hlen : places.length = 0) :
    processPages (α := α) apiKey task nB nBr gp r (resp :: rest) = (.ok [], 1, r) := by
  rw [processPages, hk]
  show (if places.length = 0 then _ else _) = _
  rw [if_pos hlen]

theorem processPages_cons_more {α : Type} {apiKey : Option String} {task : QueryTask}
    {nB nBr : List Char} {gp : Option α × Option α} {r : ℕ} {resp : UpstreamResponse}
    {rest : List UpstreamResponse} {places : List Place}
    (hk : searchSerperPlaces apiKey resp = .ok places) (hlen : ¬places.length = 0) :
    processPages apiKey task nB nBr gp r (resp :: rest) =
      (match processPages apiKey task nB nBr gp (r + places.length) rest with
       | (.error e, calls, fi) => (.error e, calls + 1, fi)
       | (.ok obs, calls, fi) =>
         (.ok (classifyPage task nB nBr gp r places ++ obs), calls + 1, fi)) := by
  rw [processPages, hk]
  show (if places.length = 0 then _ else _) = _
  rw [if_neg hlen]

theorem classifyPlace_rank {α : Type} (task : QueryTask) (nB nBr : List Char)
    (gp : Option α × Option α) (k : ℕ) (p : Place) :
    (classifyPlace task nB nBr gp k p).rank = some k := rfl

theorem classifyPlace_title {α : Type} (task : QueryTask) (nB nBr : List Char)
    (gp : Option α × Option α) (k : ℕ) (p : Place) :
    (classifyPlace task nB nBr gp k p).title = p.title := rfl

theorem classifyPlace_brandMatch {α : Type} (task : QueryTask) (nB nBr : List Char)
    (gp : Option α × Option α) (k : ℕ) (p : Place) :
    (classifyPlace task nB nBr gp k p).brandMatch =
      (decide (nB <:+: normalizeBrandName p.title) &&
       decide (nBr <:+: normalizeBrandName p.title)) := rfl

theorem classifyPlace_isLocalPack {α : Type} (task : QueryTask) (nB nBr : List Char)
    (gp : Option α × Option α) (k : ℕ) (p : Place) :
    (classifyPlace task nB nBr gp k p).isLocalPack = some (decide (k ≤ 3)) := rfl

theorem classifyPlace_localPackPosition {α : Type} (task : QueryTask) (nB nBr : List Char)
    (gp : Option α × Option α) (k : ℕ) (p : Place) :
    (classifyPlace task nB nBr gp k p).localPackPosition =
      (if k ≤ 3 then some k else none) := rfl

/-- Ranks assigned within one page are consecutive from the incoming counter. -/
theorem classifyPage_map_rank {α : Type} (task : QueryTask) (nB nBr : List Char)
    (gp : Option α × Option α) :
    ∀ (r : ℕ) (places : List Place),
      (classifyPage task nB nBr gp r places).map (fun o => o.rank) =
        (List.range' r places.length).map some := by
  intro r places
  induction places generalizing r with
  | nil => rfl
  | cons p rest ih =>
    rw [classifyPage, List.map_cons, ih (r + 1), List.length_cons, List.range'_succ,
      List.map_cons, classifyPlace_rank]

theorem classifyPage_length {α : Type} (task : QueryTask) (nB nBr : List Char)
    (gp : Option α × Option α) (r : ℕ) (places : List Place) :
    (classifyPage task nB nBr gp r places).length = places.length := by
  have h := congrArg List.length (classifyPage_map_rank task nB nBr gp r places)
  simpa using h

theorem mem_classifyPage {α : Type} (task : QueryTask) (nB nBr : List Char)
    (gp : Option α × Option α) :
    ∀ (r : ℕ) (places : List Place) (o : Obs α),
      o ∈ classifyPage task nB nBr gp r places →
      ∃ k p, p ∈ places ∧ o = classifyPlace task nB nBr gp k p := by
  intro r places
  induction places generalizing r with
  | nil => intro o h; simp [classifyPage] at h
  | cons p rest ih =>
    intro o h
    rw [classifyPage, List.mem_cons] at h
    rcases h with h | h
    · exact ⟨r, p, List.mem_cons_self p rest, h⟩
    · obtain ⟨k, q, hq, ho⟩ := ih (r + 1) o h
      exact ⟨k, q, List.mem_cons_of_mem p hq, ho⟩

/-- Characterization of a successful pagination loop: the emitted ranks are
consecutive from the incoming counter, and every emitted record is a
classified listing. -/
theorem processPages_ok_spec {α : Type} (apiKey : Option String) (task : QueryTask)
    (nB nBr : List Char) (gp : Option α × Option α) :
    ∀ (r : ℕ) (resps : List UpstreamResponse) (l : List (Obs α)) (c fr : ℕ),
      processPages apiKey task nB nBr gp r resps = (.ok l, c, fr) →
      l.map (fun o => o.rank) = (List.range' r l.length).map some ∧
      (∀ o ∈ l, ∃ k p, o = classifyPlace task nB nBr gp k p) := by
  intro r resps
  induction resps generalizing r with
  | nil =>
    intro l c fr h
    rw [processPages] at h
    split at h
    · simp at h
    · simp only [Prod.mk.injEq, Except.ok.injEq] at h
      obtain ⟨h1, -, -⟩ := h
      subst h1
      simp
  | cons resp rest ih =>
    intro l c fr h
    rw [processPages] at h
    split at h
    · simp at h
    · rename_i places hk
      split at h
      · rename_i hlen
        simp only [Prod.mk.injEq, Except.ok.injEq] at h
        obtain ⟨h1, -, -⟩ := h
        subst h1
        simp
      · rename_i hlen
        split at h
        · simp at h
        · rename_i tailObs calls fi hrec
          simp only [Prod.mk.injEq, Except.ok.injEq] at h
          obtain ⟨h1, -, -⟩ := h
          subst h1
          obtain ⟨ihRank, ihMem⟩ := ih (r + places.length) tailObs calls fi hrec
          constructor
          · rw [List.map_append, classifyPage_map_rank, ihRank, List.length_append,
              classifyPage_length]
            rw [← List.map_append]
            congr 1
            have := List.range'_append r places.length tailObs.length 1
            simp only [one_mul] at this
            rw [this]
            congr 1
            omega
          · intro o ho
            rw [List.mem_append] at ho
            rcases ho with ho | ho
            · obtain ⟨k, p, -, hcp⟩ := mem_classifyPage task nB nBr gp r places o ho
              exact ⟨k, p, hcp⟩
            · exact ihMem o ho

/-- The loop's call counter equals the specification-side fetch count. -/
theorem processPages_calls {α : Type} (apiKey : Option String) (task : QueryTask)
    (nB nBr : List Char) (gp : Option α × Option α) :
    ∀ (r : ℕ) (resps : List UpstreamResponse),
      (processPages apiKey task nB nBr gp r resps).2.1 = numFetches apiKey resps := by
  intro r resps
  induction resps generalizing r with
  | nil =>
    rw [processPages, numFetches, List.takeWhile_nil]
    cases hk : searchSerperPlaces apiKey emptyResponse <;> simp
  | cons resp rest ih =>
    cases hk : searchSerperPlaces apiKey resp with
    | error e =>
      have hg : goodPage apiKey resp = false := by simp [goodPage, hk]
      rw [processPages, hk, numFetches, List.takeWhile_cons, hg]
      simp
    | ok places =>
      by_cases hlen : places.length = 0
      · have hg : goodPage apiKey resp = false := by simp [goodPage, hk, hlen]
        rw [processPages, hk, numFetches, List.takeWhile_cons, hg]
        simp [hlen]
      · have hg : goodPage apiKey resp = true := by simp [goodPage, hk, hlen]
        have hih := ih (r + places.length)
        rcases hrec : processPages apiKey task nB nBr gp (r + places.length) rest with
          ⟨res, calls, fi⟩
        rw [hrec] at hih
        rw [processPages_cons_more hk hlen, hrec, numFetches, List.takeWhile_cons, hg]
        cases res with
        | error e =>
          simp [numFetches] at hih ⊢
          omega
        | ok tailObs =>
          simp [numFetches] at hih ⊢
          omega

/-- Characterization of a successful grid sweep: the result is the
concatenation of the per-grid-point observation lists, and the call counter
is the sum of the per-grid-point fetch counts. -/
theorem processGridPoints_ok_spec {α : Type} (apiKey : Option String) (task : QueryTask)
    (nB nBr : List Char) :
    ∀ (gridData : List ((Option α × Option α) × List UpstreamResponse))
      (l : List (Obs α)) (c : ℕ),
      processGridPoints apiKey task nB nBr gridData = (.ok l, c) →
      l = (gridData.map (gridPointObs apiKey task nB nBr)).flatten ∧
      c = (gridData.map (fun g => numFetches apiKey g.2)).sum := by
  intro gridData
  induction gridData with
  | nil =>
    intro l c h
    rw [processGridPoints] at h
    simp only [Prod.mk.injEq] at h
    obtain ⟨h1, h2⟩ := h
    cases h1
    simp [h2.symm]
  | cons g rest ih =>
    intro l c h
    rcases g with ⟨gp, resps⟩
    rw [processGridPoints] at h
    split at h
    · simp at h
    · rename_i obs calls fi hp
      split at h
      · simp at h
      · rename_i obs' calls' hg
        simp only [Prod.mk.injEq, Except.ok.injEq] at h
        obtain ⟨h1, h2⟩ := h
        subst h1
        obtain ⟨ih1, ih2⟩ := ih obs' calls' hg
        constructor
        · have hgo : gridPointObs apiKey task nB nBr (gp, resps) = obs := by
            simp [gridPointObs, hp]
          rw [List.map_cons, List.flatten_cons, ← ih1, hgo]
        · have hc := processPages_calls apiKey task nB nBr gp 1 resps
          rw [hp] at hc
          simp only at hc
          simp only [List.map_cons, List.sum_cons]
          omega

/-- A successful grid-point loop contributes `gridPointObs`. -/
theorem gridPointObs_head_rank {α : Type} (apiKey : Option String) (task : QueryTask)
    (nB nBr : List Char) (g : (Option α × Option α) × List UpstreamResponse) (o : Obs α) :
    (gridPointObs apiKey task nB nBr g).head? = some o → o.rank = some 1 := by
  intro h
  rcases hp : processPages apiKey task nB nBr g.1 1 g.2 with ⟨res, calls, fi⟩
  cases res with
  | error e =>
    have hnil : gridPointObs apiKey task nB nBr g = [] := by simp [gridPointObs, hp]
    rw [hnil] at h
    simp at h
  | ok l =>
    have hl : gridPointObs apiKey task nB nBr g = l := by simp [gridPointObs, hp]
    rw [hl] at h
    obtain ⟨hRank, -⟩ := processPages_ok_spec apiKey task nB nBr g.1 1 g.2 l calls fi hp
    cases l with
    | nil => simp at h
    | cons x t =>
      rw [List.head?_cons, Option.some_inj] at h
      subst h
      rw [List.length_cons, List.range'_succ, List.map_cons, List.map_cons] at hRank
      simp only [List.cons.injEq] at hRank
      exact hRank.1

/-- Unfolding of a successful `runTask`: the grid observations, with the
sentinel appended exactly when none of them matched. -/
theorem runTask_ok_elim {α : Type} (apiKey : Option String) (task : QueryTask)
    (gridData : List ((Option α × Option α) × List UpstreamResponse))
    (l : List (Obs α)) (c : ℕ) :
    runTask apiKey task gridData = (.ok l, c) →
    ∃ obs, processGridPoints apiKey task (normalizeBrandName task.brand)
        (normalizeBranchName task.branch) gridData = (.ok obs, c) ∧
      l = (if obs.any (fun o => o.brandMatch) then obs
           else obs ++ [noMatchSentinel task]) := by
  intro h
  rw [runTask] at h
  split at h
  · simp at h
  · rename_i obs calls hg
    split at h
    · rename_i hm
      simp only [Prod.mk.injEq, Except.ok.injEq] at h
      obtain ⟨h1, h2⟩ := h
      subst h1
      subst h2
      exact ⟨obs, hg, by rw [if_pos hm]⟩
    · rename_i hm
      simp only [Prod.mk.injEq, Except.ok.injEq] at h
      obtain ⟨h1, h2⟩ := h
      subst h1
      subst h2
      exact ⟨obs, hg, by rw [if_neg hm]⟩

/-- Every record a successful grid sweep emits is a classified listing. -/
theorem mem_processGridPoints_ok {α : Type} (apiKey : Option String) (task : QueryTask)
    (nB nBr : List Char)
    (gridData : List ((Option α × Option α) × List UpstreamResponse))
    (l : List (Obs α)) (c : ℕ)
    (h : processGridPoints apiKey task nB nBr gridData = (.ok l, c)) :
    ∀ o ∈ l, ∃ gp k p, o = classifyPlace task nB nBr gp k p := by
  intro o ho
  obtain ⟨hl, -⟩ := processGridPoints_ok_spec apiKey task nB nBr gridData l c h
  rw [hl, List.mem_flatten] at ho
  obtain ⟨sub, hsub, hosub⟩ := ho
  rw [List.mem_map] at hsub
  obtain ⟨g, -, hg⟩ := hsub
  rcases hp : processPages apiKey task nB nBr g.1 1 g.2 with ⟨res, calls, fi⟩
  cases res with
  | error e =>
    have hnil : gridPointObs apiKey task nB nBr g = [] := by simp [gridPointObs, hp]
    rw [← hg, hnil] at hosub
    simp at hosub
  | ok l' =>
    have hl' : gridPointObs apiKey task nB nBr g = l' := by simp [gridPointObs, hp]
    rw [← hg, hl'] at hosub
    obtain ⟨-, hmem⟩ := processPages_ok_spec apiKey task nB nBr g.1 1 g.2 l' calls fi hp
    obtain ⟨k, p, hco⟩ := hmem o hosub
    exact ⟨g.1, k, p, hco⟩

theorem processGridPoints_cons {α : Type} (apiKey : Option String) (task : QueryTask)
    (nB nBr : List Char) (gp : Option α × Option α) (resps : List UpstreamResponse)
    (rest : List ((Option α × Option α) × List UpstreamResponse)) :
    processGridPoints apiKey task nB nBr ((gp, resps) :: rest) =
      (match processPages apiKey task nB nBr gp 1 resps with
       | (.error e, calls, _) => (.error e, calls)
       | (.ok obs, calls, _) =>
         match processGridPoints apiKey task nB nBr rest with
         | (.error e, calls') => (.error e, calls + calls')
         | (.ok obs', calls') => (.ok (obs ++ obs'), calls + calls')) := rfl

theorem runTask_def {α : Type} (apiKey : Option String) (task : QueryTask)
    (gridData : List ((Option α × Option α) × List UpstreamResponse)) :
    runTask apiKey task gridData =
      (match processGridPoints apiKey task (normalizeBrandName task.brand)
          (normalizeBranchName task.branch) gridData with
       | (.error e, calls) => (.error e, calls)
       | (.ok obs, calls) =>
         if obs.any (fun o => o.brandMatch) then (.ok obs, calls)
         else (.ok (obs ++ [noMatchSentinel task]), calls)) := rfl

theorem runAll_cons {α : Type} (apiKey : Option String) (task : QueryTask)
    (gridData : List ((Option α × Option α) × List UpstreamResponse))
    (rest : List (QueryTask × List ((Option α × Option α) × List UpstreamResponse))) :
    runAll apiKey ((task, gridData) :: rest) =
      (match runTask apiKey task gridData with
       | (.error e, calls) => (.error e, calls)
       | (.ok obs, calls) =>
         match runAll apiKey rest with
         | (.error e, calls') => (.error e, calls + calls')
         | (.ok obs', calls') => (.ok (obs ++ obs'), calls + calls')) := rfl

/-- Every ranked record a successful task emits is a classified listing of
that task (sentinels are the only records without a numeric rank). -/
theorem runTask_mem_ranked {α : Type} (apiKey : Option String) (task : QueryTask)
    (gridData : List ((Option α × Option α) × List UpstreamResponse))
    (l : List (Obs α)) (c : ℕ) (o : Obs α)
    (h : runTask apiKey task gridData = (.ok l, c)) (ho : o ∈ l)
    (hrank : o.rank ≠ none) :
    ∃ gp k p, o = classifyPlace task (normalizeBrandName task.brand)
        (normalizeBranchName task.branch) gp k p := by
  obtain ⟨obs, hg, hl⟩ := runTask_ok_elim apiKey task gridData l c h
  subst hl
  by_cases hm : obs.any (fun o => o.brandMatch)
  · rw [if_pos hm] at ho
    exact mem_processGridPoints_ok apiKey task _ _ gridData obs c hg o ho
  · rw [if_neg hm, List.mem_append] at ho
    rcases ho with ho | ho
    · exact mem_processGridPoints_ok apiKey task _ _ gridData obs c hg o ho
    · rw [List.mem_singleton] at ho
      subst ho
      exact absurd rfl hrank

/-- A task whose upstream answers only empty pages fetches exactly once per
grid point and emits nothing. -/
theorem processPages_all_empty {α : Type} (key : String) (task : QueryTask)
    (nB nBr : List Char) (gp : Option α × Option α) :
    ∀ resps : List UpstreamResponse,
      (∀ resp ∈ resps, resp.ok = true ∧ resp.places = []) →
      processPages (α := α) (some key) task nB nBr gp 1 resps = (.ok [], 1, 1) := by
  intro resps hresp
  cases resps with
  | nil => simp [processPages, searchSerperPlaces, emptyResponse]
  | cons resp rest =>
    obtain ⟨hok, hpl⟩ := hresp resp (List.mem_cons_self resp rest)
    have hk : searchSerperPlaces (some key) resp = .ok [] := by
      simp [searchSerperPlaces, hok, hpl]
    exact processPages_cons_empty hk rfl

theorem processGridPoints_all_empty {α : Type} (key : String) (task : QueryTask)
    (nB nBr : List Char) :
    ∀ gridData : List ((Option α × Option α) × List UpstreamResponse),
      (∀ g ∈ gridData, ∀ resp ∈ g.2, resp.ok = true ∧ resp.places = []) →
      processGridPoints (some key) task nB nBr gridData = (.ok [], gridData.length) := by
  intro gridData
  induction gridData with
  | nil => intro _; rfl
  | cons g rest ih =>
    intro hg
    rcases g with ⟨gp, resps⟩
    have hpp := processPages_all_empty key task nB nBr gp resps
      (fun resp hr => hg (gp, resps) (List.mem_cons_self _ _) resp hr)
    have hrest := ih (fun g' hg' resp hr => hg g' (List.mem_cons_of_mem _ hg') resp hr)
    rw [processGridPoints_cons, hpp, hrest]
    simp [List.length_cons, Nat.add_comm]

/-- A failed fetch inside the pagination loop propagates immediately: after
any run of good pages, the loop's result is that error, exactly one more
fetch is made, and nothing after the failing page is ever consulted (the
conclusion does not depend on `rest`). -/
theorem processPages_error_prop {α : Type} (apiKey : Option String) (task : QueryTask)
    (nB nBr : List Char) (gp : Option α × Option α) :
    ∀ (good : List UpstreamResponse) (r : ℕ) (bad : UpstreamResponse)
      (rest : List UpstreamResponse) (e : FetchErr),
      (∀ x ∈ good, goodPage apiKey x = true) →
      searchSerperPlaces apiKey bad = .error e →
      (processPages (α := α) apiKey task nB nBr gp r (good ++ bad :: rest)).1 = .error e ∧
      (processPages apiKey task nB nBr gp r (good ++ bad :: rest)).2.1 = good.length + 1 := by
  intro good
  induction good with
  | nil =>
    intro r bad rest e _ hbad
    rw [List.nil_append, processPages_cons_error hbad]
    simp
  | cons x xs ih =>
    intro r bad rest e hgood hbad
    have hx : goodPage apiKey x = true := hgood x (List.mem_cons_self x xs)
    rw [goodPage] at hx
    split at hx
    · rename_i places hk
      have hlen : ¬places.length = 0 := by simpa using hx
      have hrec := ih (r + places.length) bad rest e
        (fun y hy => hgood y (List.mem_cons_of_mem x hy)) hbad
      rcases hpp : processPages apiKey task nB nBr gp (r + places.length)
          (xs ++ bad :: rest) with ⟨res, calls, fi⟩
      rw [hpp] at hrec
      simp only at hrec
      obtain ⟨t1, t2⟩ := hrec
      rw [List.cons_append, processPages_cons_more hk hlen, hpp]
      cases res with
      | error e2 =>
        simp only [Except.error.injEq] at t1
        subst t1
        constructor
        · simp
        · simp only [List.length_cons]
          simp
          omega
      | ok l2 => simp at t1
    · simp at hx

/-- A failed grid point aborts the remaining grid points: the sweep's result
is the error with the calls made so far, independent of `rest`. -/
theorem processGridPoints_error_prop {α : Type} (apiKey : Option String) (task : QueryTask)
    (nB nBr : List Char) (gp : Option α × Option α) (resps : List UpstreamResponse)
    (rest : List ((Option α × Option α) × List UpstreamResponse)) (e : FetchErr)
    (calls fi : ℕ)
    (hp : processPages apiKey task nB nBr gp 1 resps = (.error e, calls, fi)) :
    processGridPoints apiKey task nB nBr ((gp, resps) :: rest) = (.error e, calls) := by
  rw [processGridPoints_cons, hp]

/-- A failed task aborts the whole run: the run's result is the error (no
observation list at all) and the counter stops at the failing task's count,
independent of the remaining tasks. -/
theorem runAll_error_prop {α : Type} (apiKey : Option String) (task : QueryTask)
    (gridData : List ((Option α × Option α) × List UpstreamResponse)) (e : FetchErr)
    (rest : List (QueryTask × List ((Option α × Option α) × List UpstreamResponse)))
    (h : (runTask apiKey task gridData).1 = .error e) :
    (runAll apiKey ((task, gridData) :: rest)).1 = .error e ∧
    (runAll apiKey ((task, gridData) :: rest)).2 = (runTask apiKey task gridData).2 := by
  rcases hrt : runTask apiKey task gridData with ⟨res, calls⟩
  rw [hrt] at h
  simp only at h
  subst h
  rw [runAll_cons, hrt]
  simp

/-- A successful task's call count is the sum of its per-grid-point fetch
counts. -/
theorem runTask_calls_ok {α : Type} (apiKey : Option String) (task : QueryTask)
    (gridData : List ((Option α × Option α) × List UpstreamResponse))
    (l : List (Obs α)) (c : ℕ) (h : runTask apiKey task gridData = (.ok l, c)) :
    c = (gridData.map (fun g => numFetches apiKey g.2)).sum := by
  obtain ⟨obs, hg, -⟩ := runTask_ok_elim apiKey task gridData l c h
  exact (processGridPoints_ok_spec apiKey task _ _ gridData obs c hg).2

theorem jsWhitespace_toLower (c : Char) (h : jsWhitespace c = true) :
    Char.toLower c = c := by
  rw [jsWhitespace] at h
  simp only [Bool.or_eq_true, decide_eq_true_eq] at h
  rcases h with ((((h | h) | h) | h) | h) | h <;> subst h <;> decide

/-- C1 counterexample: the claim says the rank counter continues across grid
points of one QueryTask.  At a concrete task with two grid points (two
listings at the first, one at the second) the emitted ranks are `[1, 2, 1]`:
the first observation of grid point 2 has `rankPosition = 1`, not the
continuation `3` the claim asserts, because routes.ts re-declares
`queryResultIndex = 1` inside the grid-point loop. -/
theorem c1_rank_across_grid_points_counterexample :
    Except.map (fun l => l.map (fun o => o.rank)) (runTask (some "key") exTask exGrid2).1 =
      .ok [some 1, some 2, some 1] ∧
    ([some 1, some 2, some 1] : List (Option ℕ)) ≠ [some 1, some 2, some 3] :=
  ⟨by decide, by decide⟩

/-- C1 amended: the rank counter IS reset at every grid point within a
QueryTask: a successful grid sweep is the concatenation of the per-grid-point
observation lists, and the first observation of every grid point has
`rankPosition = 1` (rank positions are monotonically increasing across pages
only within one grid point). -/
theorem c1_rank_counter_resets_per_grid_point {α : Type} (apiKey : Option String)
    (task : QueryTask) (nB nBr : List Char)
    (gridData : List ((Option α × Option α) × List UpstreamResponse))
    (l : List (Obs α)) (c : ℕ)
    (h : processGridPoints apiKey task nB nBr gridData = (.ok l, c)) :
    l = (gridData.map (gridPointObs apiKey task nB nBr)).flatten ∧
    ∀ g ∈ gridData, ∀ o : Obs α,
      (gridPointObs apiKey task nB nBr g).head? = some o → o.rank = some 1 :=
  ⟨(processGridPoints_ok_spec apiKey task nB nBr gridData l c h).1,
   fun g _ o ho => gridPointObs_head_rank apiKey task nB nBr g o ho⟩

/-- Witness for the amended C1 at a concrete two-grid-point task. -/
theorem c1_rank_counter_resets_per_grid_point_witness :
    processGridPoints (some "key") exTask exNB exNBr exGrid2 = (.ok exObs2, 4) ∧
    exObs2 = (exGrid2.map (gridPointObs (some "key") exTask exNB exNBr)).flatten ∧
    (classifyPlace exTask exNB exNBr exGp 1 { title := "a b" }).rank = some 1 := by
  have h := c1_rank_counter_resets_per_grid_point (some "key") exTask exNB exNBr exGrid2
    exObs2 4 (by decide)
  exact ⟨by decide, h.1,
    h.2 (exGp, [exOk [{ title := "a b" }]]) (by decide)
      (classifyPlace exTask exNB exNBr exGp 1 { title := "a b" }) (by decide)⟩

/-- C2: an emitted ListingObservation's `brandMatch` flag is true iff the
normalized title (lowercased, whitespace removed) contains the normalized
brand (lowercased, whitespace removed) as a substring AND contains the
normalized branch (lowercased, non-alphanumerics removed) as a substring,
regardless of order or position. -/
theorem c2_brandMatch_iff_normalized_substrings {α : Type} (apiKey : Option String)
    (task : QueryTask)
    (gridData : List ((Option α × Option α) × List UpstreamResponse))
    (l : List (Obs α)) (c : ℕ)
    (h : runTask apiKey task gridData = (.ok l, c)) :
    ∀ o ∈ l, o.rank ≠ none →
      (o.brandMatch = true ↔
        (normalizeBrandName task.brand <:+: normalizeBrandName o.title ∧
         normalizeBranchName task.branch <:+: normalizeBrandName o.title)) := by
  intro o ho hrank
  obtain ⟨gp, k, p, hcp⟩ := runTask_mem_ranked apiKey task gridData l c o h ho hrank
  subst hcp
  rw [classifyPlace_brandMatch, classifyPlace_title, Bool.and_eq_true, decide_eq_true_iff,
    decide_eq_true_iff]

/-- Witness for C2 at the specification's worked example. -/
theorem c2_brandMatch_iff_normalized_substrings_witness :
    runTask (some "key") exTaskPP exGridPP = (.ok exObsPP, 2) ∧
    (exObsPP1.brandMatch = true ↔
      (normalizeBrandName exTaskPP.brand <:+: normalizeBrandName exObsPP1.title ∧
       normalizeBranchName exTaskPP.branch <:+: normalizeBrandName exObsPP1.title)) :=
  ⟨by decide,
   c2_brandMatch_iff_normalized_substrings (some "key") exTaskPP exGridPP exObsPP 2
     (by decide) exObsPP1 (by decide) (by decide)⟩

/-- C3: a QueryTask with no brand match yields exactly one sentinel record —
title "Brand not found", `brandMatch = false`, no numeric rank — regardless
of the number of grid points; with only empty pages it yields exactly the
sentinel and nothing else; with at least one match, no sentinel. -/
theorem c3_no_match_sentinel {α : Type} (apiKey : Option String) (task : QueryTask)
    (gridData : List ((Option α × Option α) × List UpstreamResponse)) :
    (∀ (l : List (Obs α)) (c : ℕ), runTask apiKey task gridData = (.ok l, c) →
      ((∀ o ∈ l, o.rank ≠ none → o.brandMatch = false) →
          l.countP (fun o => decide (o.rank = none)) = 1) ∧
      ((∃ o ∈ l, o.brandMatch = true) →
          l.countP (fun o => decide (o.rank = none)) = 0) ∧
      (∀ o ∈ l, o.rank = none → o.title = "Brand not found" ∧ o.brandMatch = false)) ∧
    (∀ key : String, apiKey = some key →
      (∀ g ∈ gridData, ∀ resp ∈ g.2, resp.ok = true ∧ resp.places = []) →
      runTask apiKey task gridData = (.ok [noMatchSentinel task], gridData.length)) := by
  constructor
  · intro l c h
    obtain ⟨obs, hg, hl⟩ := runTask_ok_elim apiKey task gridData l c h
    have hobsrank : ∀ o ∈ obs, o.rank ≠ none := by
      intro o ho
      obtain ⟨gp, k, p, hcp⟩ := mem_processGridPoints_ok apiKey task _ _ gridData obs c hg o ho
      rw [hcp, classifyPlace_rank]
      simp
    have hcount0 : obs.countP (fun o => decide (o.rank = none)) = 0 := by
      rw [List.countP_eq_zero]
      intro o ho
      simpa using hobsrank o ho
    subst hl
    by_cases hm : obs.any (fun o => o.brandMatch)
    · rw [if_pos hm]
      refine ⟨?_, fun _ => hcount0, ?_⟩
      · intro hnone
        obtain ⟨o, ho, hmo⟩ := List.any_eq_true.mp hm
        have hf := hnone o ho (hobsrank o ho)
        rw [hf] at hmo
        simp at hmo
      · intro o ho hnone
        exact absurd hnone (hobsrank o ho)
    · rw [if_neg hm]
      refine ⟨?_, ?_, ?_⟩
      · intro _
        rw [List.countP_append, hcount0]
        simp [List.countP_cons, noMatchSentinel]
      · intro hex
        obtain ⟨o, ho, hmo⟩ := hex
        rw [List.mem_append] at ho
        rcases ho with ho | ho
        · exact absurd (List.any_eq_true.mpr ⟨o, ho, hmo⟩) hm
        · rw [List.mem_singleton] at ho
          subst ho
          simp [noMatchSentinel] at hmo
      · intro o ho hnone
        rw [List.mem_append] at ho
        rcases ho with ho | ho
        · exact absurd hnone (hobsrank o ho)
        · rw [List.mem_singleton] at ho
          subst ho
          exact ⟨rfl, rfl⟩
  · intro key hkey hempty
    subst hkey
    rw [runTask_def, processGridPoints_all_empty key task _ _ gridData hempty]
    simp

/-- Witness for C3: a no-match task yields exactly one sentinel; an all-empty
task yields exactly the sentinel with one fetch per grid point. -/
theorem c3_no_match_sentinel_witness :
    runTask (some "key") exTask exGridNoMatch = (.ok exObsNoMatch, 3) ∧
    exObsNoMatch.countP (fun o => decide (o.rank = none)) = 1 ∧
    runTask (some "key") exTask exGridAllEmpty = (.ok [noMatchSentinel exTask], 2) := by
  refine ⟨by decide, ?_, ?_⟩
  · exact ((c3_no_match_sentinel (some "key") exTask exGridNoMatch).1 exObsNoMatch 3
      (by decide)).1 (by decide)
  · exact (c3_no_match_sentinel (some "key") exTask exGridAllEmpty).2 "key" rfl (by decide)

/-- C4: every emitted ListingObservation satisfies the local-pack invariant:
`isLocalPack` is true iff its rank is at most 3, and `localPackPosition`
equals the rank when in the local pack and is absent otherwise. -/
theorem c4_local_pack_invariant {α : Type} (apiKey : Option String) (task : QueryTask)
    (gridData : List ((Option α × Option α) × List UpstreamResponse))
    (l : List (Obs α)) (c : ℕ)
    (h : runTask apiKey task gridData = (.ok l, c)) :
    ∀ o ∈ l, ∀ rnk : ℕ, o.rank = some rnk →
      (o.isLocalPack = some true ↔ rnk ≤ 3) ∧
      o.localPackPosition = (if rnk ≤ 3 then some rnk else none) := by
  intro o ho rnk hr
  obtain ⟨gp, k, p, hcp⟩ := runTask_mem_ranked apiKey task gridData l c o h ho
    (by rw [hr]; simp)
  subst hcp
  rw [classifyPlace_rank, Option.some_inj] at hr
  subst hr
  refine ⟨?_, by rw [classifyPlace_localPackPosition]⟩
  rw [classifyPlace_isLocalPack]
  simp

/-- Witness for C4 at rank 4 (outside the local pack). -/
theorem c4_local_pack_invariant_witness :
    runTask (some "key") exTask exGrid4 = (.ok exObs4, 2) ∧
    ((exObs4last.isLocalPack = some true ↔ 4 ≤ 3) ∧
     exObs4last.localPackPosition = (if 4 ≤ 3 then some 4 else none)) :=
  ⟨by decide,
   c4_local_pack_invariant (some "key") exTask exGrid4 exObs4 2 (by decide) exObs4last
     (by decide) 4 (by decide)⟩

/-- C5: within one grid point's page sequence the emitted rank positions, in
emission order, are exactly 1, 2, 3, …: consecutive from 1 with no gaps,
continuing across page boundaries. -/
theorem c5_ranks_consecutive_from_one {α : Type} (apiKey : Option String)
    (task : QueryTask) (nB nBr : List Char) (gp : Option α × Option α)
    (resps : List UpstreamResponse) (l : List (Obs α)) (c fr : ℕ)
    (h : processPages apiKey task nB nBr gp 1 resps = (.ok l, c, fr)) :
    l.map (fun o => o.rank) = (List.range' 1 l.length).map some :=
  (processPages_ok_spec apiKey task nB nBr gp 1 resps l c fr h).1

/-- Witness for C5 across a page boundary (two listings, then one). -/
theorem c5_ranks_consecutive_from_one_witness :
    processPages (some "key") exTask exNB exNBr exGp 1 exPages2 = (.ok exObsPages2, 3, 4) ∧
    exObsPages2.map (fun o => o.rank) = (List.range' 1 exObsPages2.length).map some :=
  ⟨by decide,
   c5_ranks_consecutive_from_one (some "key") exTask exNB exNBr exGp exPages2 exObsPages2
     3 4 (by decide)⟩

/-- C8: when a run completes, the accumulated `apiCallsMade` counter equals
the exact number of Search Page Fetcher invocations summed over all tasks,
grid points and pages, including the final empty-page fetch that terminates
each grid point's pagination. -/
theorem c8_apiCalls_eq_total_fetches {α : Type} (apiKey : Option String) :
    ∀ (tasks : List (QueryTask × List ((Option α × Option α) × List UpstreamResponse)))
      (l : List (Obs α)) (c : ℕ),
      runAll apiKey tasks = (.ok l, c) →
      c = (tasks.map (fun t => (t.2.map (fun g => numFetches apiKey g.2)).sum)).sum := by
  intro tasks
  induction tasks with
  | nil =>
    intro l c h
    rw [runAll] at h
    simp only [Prod.mk.injEq] at h
    obtain ⟨-, h2⟩ := h
    simp [← h2]
  | cons t rest ih =>
    intro l c h
    rcases t with ⟨task, gd⟩
    rw [runAll_cons] at h
    split at h
    · simp at h
    · rename_i obs calls hrt
      split at h
      · simp at h
      · rename_i obs' calls' hra
        simp only [Prod.mk.injEq, Except.ok.injEq] at h
        obtain ⟨-, h2⟩ := h
        have hc1 := runTask_calls_ok apiKey task gd obs calls hrt
        have hc2 := ih obs' calls' hra
        simp only [List.map_cons, List.sum_cons]
        omega

/-- Witness for C8 on a completed two-task run. -/
theorem c8_apiCalls_eq_total_fetches_witness :
    runAll (some "key") exRunTasks = (.ok (exObs2 ++ exObsPP), 6) ∧
    6 = (exRunTasks.map
          (fun t => (t.2.map (fun g => numFetches (some "key") g.2)).sum)).sum :=
  ⟨by decide,
   c8_apiCalls_eq_total_fetches (some "key") exRunTasks (exObs2 ++ exObsPP) 6 (by decide)⟩

/-- C9: the fetcher fails with the configuration error exactly when no
credential is present (independently of the upstream, i.e. without issuing a
request), fails with the upstream error carrying the HTTP status and reason
phrase exactly when the upstream responds non-success — with a credential and
a successful response it returns the page's listings and does not fail, and
every failure with a credential present is the upstream error of a non-success
response — and any fetch failure propagates immediately: the pagination loop
stops with that error after the failing call (its result and call count do
not depend on anything after the failing page), and a failing task aborts the
run with the error and no result list, the remaining tasks never being
consulted. -/
theorem c9_fetch_error_semantics :
    (∀ resp : UpstreamResponse, searchSerperPlaces none resp = .error .config) ∧
    (∀ (key : String) (resp : UpstreamResponse),
        searchSerperPlaces (some key) resp ≠ .error .config) ∧
    (∀ (key : String) (resp : UpstreamResponse), resp.ok = false →
        searchSerperPlaces (some key) resp =
          .error (.upstream resp.status resp.statusText)) ∧
    (∀ (key : String) (resp : UpstreamResponse), resp.ok = true →
        searchSerperPlaces (some key) resp = .ok resp.places) ∧
    (∀ (key : String) (resp : UpstreamResponse) (e : FetchErr),
        searchSerperPlaces (some key) resp = .error e ↔
          (resp.ok = false ∧ e = .upstream resp.status resp.statusText)) ∧
    (∀ (α : Type) (apiKey : Option String) (task : QueryTask) (nB nBr : List Char)
        (gp : Option α × Option α) (good : List UpstreamResponse) (r : ℕ)
        (bad : UpstreamResponse) (rest : List UpstreamResponse) (e : FetchErr),
        (∀ x ∈ good, goodPage apiKey x = true) →
        searchSerperPlaces apiKey bad = .error e →
        (processPages (α := α) apiKey task nB nBr gp r (good ++ bad :: rest)).1 =
          .error e ∧
        (processPages (α := α) apiKey task nB nBr gp r (good ++ bad :: rest)).2.1 =
          good.length + 1) ∧
    (∀ (α : Type) (apiKey : Option String) (task : QueryTask)
        (gridData : List ((Option α × Option α) × List UpstreamResponse)) (e : FetchErr)
        (rest : List (QueryTask × List ((Option α × Option α) × List UpstreamResponse))),
        (runTask apiKey task gridData).1 = .error e →
        (runAll apiKey ((task, gridData) :: rest)).1 = .error e ∧
        (runAll apiKey ((task, gridData) :: rest)).2 =
          (runTask apiKey task gridData).2) := by
  refine ⟨fun resp => rfl, ?_, ?_, ?_, ?_, ?_, ?_⟩
  · intro key resp hc
    rw [searchSerperPlaces] at hc
    split at hc
    · simp at hc
    · simp at hc
  · intro key resp hok
    rw [searchSerperPlaces, if_neg (by simp [hok])]
  · intro key resp hok
    rw [searchSerperPlaces, if_pos hok]
  · intro key resp e
    constructor
    · intro he
      rw [searchSerperPlaces] at he
      split at he
      · simp at he
      · rename_i hok
        simp only [Except.error.injEq] at he
        rw [Bool.not_eq_true] at hok
        exact ⟨hok, he.symm⟩
    · rintro ⟨hok, he⟩
      subst he
      rw [searchSerperPlaces, if_neg (by simp [hok])]
  · intro α apiKey task nB nBr gp good r bad rest e hgood hbad
    exact processPages_error_prop apiKey task nB nBr gp good r bad rest e hgood hbad
  · intro α apiKey task gridData e rest h
    exact runAll_error_prop apiKey task gridData e rest h

/-- Witness for C9: each failure mode, the success case, the non-success
biconditional, and both propagation facts at concrete inputs. -/
theorem c9_fetch_error_semantics_witness :
    searchSerperPlaces none exBad = .error .config ∧
    searchSerperPlaces (some "key") (exOk [{ title := "a b" }]) ≠ .error .config ∧
    searchSerperPlaces (some "key") exBad = .error (.upstream exBad.status exBad.statusText) ∧
    searchSerperPlaces (some "key") (exOk [{ title := "a b" }]) =
      .ok [{ title := "a b" }] ∧
    (searchSerperPlaces (some "key") exBad =
        .error (.upstream exBad.status exBad.statusText) ↔
      (exBad.ok = false ∧
       (FetchErr.upstream exBad.status exBad.statusText) =
         .upstream exBad.status exBad.statusText)) ∧
    ((processPages (α := Unit) (some "key") exTask exNB exNBr exGp 1
        ([exOk [{ title := "a b" }]] ++ exBad :: [exOk []])).1 =
      .error (.upstream 500 "Internal Server Error") ∧
     (processPages (α := Unit) (some "key") exTask exNB exNBr exGp 1
        ([exOk [{ title := "a b" }]] ++ exBad :: [exOk []])).2.1 =
      [exOk [{ title := "a b" }]].length + 1) ∧
    ((runAll (some "key") ((exTask, [(exGp, [exBad])]) :: [(exTaskPP, exGridPP)])).1 =
      .error (.upstream 500 "Internal Server Error") ∧
     (runAll (some "key") ((exTask, [(exGp, [exBad])]) :: [(exTaskPP, exGridPP)])).2 =
      (runTask (some "key") exTask [(exGp, [exBad])]).2) := by
  have h := c9_fetch_error_semantics
  refine ⟨h.1 exBad, h.2.1 "key" (exOk [{ title := "a b" }]),
    h.2.2.1 "key" exBad (by decide), h.2.2.2.1 "key" (exOk [{ title := "a b" }]) (by decide),
    h.2.2.2.2.1 "key" exBad (.upstream exBad.status exBad.statusText), ?_, ?_⟩
  · exact h.2.2.2.2.2.1 Unit (some "key") exTask exNB exNBr exGp
      [exOk [{ title := "a b" }]] 1 exBad [exOk []]
      (.upstream 500 "Internal Server Error") (by decide) (by decide)
  · exact h.2.2.2.2.2.2 Unit (some "key") exTask [(exGp, [exBad])]
      (.upstream 500 "Internal Server Error") [(exTaskPP, exGridPP)] (by decide)

/-- C10: degenerate normalizations.  A branch with no alphanumeric character
normalizes to the empty string, making the branch half of the match test
vacuous, so `brandMatch` reduces to the brand test alone; a brand of only
whitespace normalizes to the empty string and is contained in every title;
when both are empty every listing is a brand match. -/
theorem c10_empty_normalization_match {α : Type} (task : QueryTask)
    (gp : Option α × Option α) (r : ℕ) (p : Place) :
    ((∀ ch ∈ task.branch.toList, isLowerAlnum (Char.toLower ch) = false) →
        normalizeBranchName task.branch = []) ∧
    (normalizeBranchName task.branch = [] →
        (classifyPlace task (normalizeBrandName task.brand)
            (normalizeBranchName task.branch) gp r p).brandMatch =
          decide (normalizeBrandName task.brand <:+: normalizeBrandName p.title)) ∧
    ((∀ ch ∈ task.brand.toList, jsWhitespace ch = true) →
        normalizeBrandName task.brand = []) ∧
    (normalizeBrandName task.brand = [] →
        ∀ t : String, normalizeBrandName task.brand <:+: normalizeBrandName t) ∧
    (normalizeBrandName task.brand = [] → normalizeBranchName task.branch = [] →
        (classifyPlace task (normalizeBrandName task.brand)
            (normalizeBranchName task.branch) gp r p).brandMatch = true) := by
  refine ⟨?_, ?_, ?_, ?_, ?_⟩
  · intro hno
    rw [normalizeBranchName, List.filter_eq_nil_iff]
    intro a ha
    rw [List.mem_map] at ha
    obtain ⟨ch, hch, hlow⟩ := ha
    subst hlow
    simp [hno ch hch]
  · intro hbr
    rw [classifyPlace_brandMatch, hbr]
    have hnil : decide (([] : List Char) <:+: normalizeBrandName p.title) = true :=
      decide_eq_true List.nil_infix
    rw [hnil, Bool.and_true]
  · intro hws
    rw [normalizeBrandName, List.filter_eq_nil_iff]
    intro a ha
    rw [List.mem_map] at ha
    obtain ⟨ch, hch, hlow⟩ := ha
    subst hlow
    rw [jsWhitespace_toLower ch (hws ch hch)]
    simp [hws ch hch]
  · intro hb t
    rw [hb]
    exact List.nil_infix
  · intro hb hbr
    rw [classifyPlace_brandMatch, hb, hbr]
    simp [List.nil_infix]

/-- Witness for C10 at brand "   " and branch "!!!". -/
theorem c10_empty_normalization_match_witness :
    normalizeBranchName exTaskDeg.branch = [] ∧
    normalizeBrandName exTaskDeg.brand = [] ∧
    normalizeBrandName exTaskDeg.brand <:+: normalizeBrandName "Any Title" ∧
    (classifyPlace exTaskDeg (normalizeBrandName exTaskDeg.brand)
        (normalizeBranchName exTaskDeg.branch) exGp 1
        { title := "Any Title" }).brandMatch = true := by
  have h := c10_empty_normalization_match (α := Unit) exTaskDeg exGp 1 { title := "Any Title" }
  exact ⟨h.1 (by decide), h.2.2.1 (by decide), h.2.2.2.1 (by decide) "Any Title",
    h.2.2.2.2 (by decide) (by decide)⟩

end LocalRankChecker
